import Mathlib

/-!
Shallow embedding of the register-decoding and classification core of
`src/app.py` (vevor-inverter-mqtt bridge).

Modelling conventions:
* 16-bit modbus register words are `Nat` (pymodbus hands back unsigned
  words); Python's unbounded signed integer results are `Int`.
* Python float division by 10 or 100 is modelled exactly over `ℚ`.
* Python `dict` lookup tables are association lists in insertion order.
* Out-of-range list indexing raises `IndexError` in Python and aborts the
  decode, so register access is fallible: every read goes through
  `List.getElem?` and `parse_snapshot` runs in the `Option` monad,
  returning `none` whenever an access would be out of range.
* The capture timestamp `ts = time.time()` is an external clock read and
  is not part of the model.
-/

/-- Function `s16` from src/app.py: convert a 16-bit register word to a signed int
(two's complement: words at or above 0x8000 are negative). -/
def s16 (x : Nat) : Int :=
  if x < 0x8000 then (x : Int) else (x : Int) - 0x10000

/-- Function `u16` from src/app.py: mask to 16 bits. -/
def u16 (x : Nat) : Nat := x &&& 0xFFFF

/-- Function `clamp_bad_power` from src/app.py: some firmwares occasionally return
garbage spikes for PV power, so implausible readings are forced to zero. -/
def clamp_bad_power (pin : Nat) : Nat :=
  if 65500 ≤ pin ∨ 10000 < pin then 0 else pin

/-- Function `bits_to_names` from src/app.py: the names from the table whose bit is
set in `value` (the Python dict iterates pairs in insertion order). -/
def bits_to_names (value : Nat) (bit_names : List (Nat × String)) : List String :=
  (bit_names.filter (fun p => value &&& (1 <<< p.1) != 0)).map Prod.snd

/-- Function `flow_bits_list` from src/app.py: indices of the set bits of a 16-bit
word, in the ascending order produced by `range(16)`. -/
def flow_bits_list (flow_status : Nat) : List Nat :=
  (List.range 16).filter (fun bit => flow_status &&& (1 <<< bit) != 0)

/-- Function `derived_operation_mode` from src/app.py: the priority-ordered operating
state classifier over the four power signals. -/
def derived_operation_mode (mains_w bat_w pv_w out_w : Int) : String :=
  if mains_w > 50 then "BYPASS_GRID"
  else if bat_w < -30 then "INVERTER_BATTERY_DISCHARGE"
  else if bat_w > 30 then "PV_SURPLUS_CHARGING"
  else if pv_w > 30 ∧ out_w > 30 then "PV_SUPPLYING_NEAR_BALANCED"
  else "IDLE_OR_UNKNOWN"

/-- Table `WORK_MODE_MAP` from src/app.py, in insertion order. -/
def WORK_MODE_MAP : List (Nat × String) :=
  [(0, "Standby"), (1, "Line/AC"), (2, "Bypass/Grid Supply"),
   (3, "Inverter Supply"), (4, "Fault"), (5, "Shutdown"), (6, "Bypass (alt)")]

/-- Table `GENERIC_STATUS_BITS` from src/app.py, in insertion order. -/
def GENERIC_STATUS_BITS : List (Nat × String) :=
  [(0, "Inverter On"), (1, "Output Active"), (2, "Charging"),
   (3, "Discharging"), (4, "Grid Present"), (5, "PV Present"),
   (6, "Battery Low"), (7, "Battery Full"), (8, "Fault"),
   (9, "Line Mode"), (10, "Bypass Mode"), (11, "Overload"),
   (12, "Over Temp")]

/-- The `InverterSnapshot` dataclass from src/app.py (without the `ts`
clock field, see the module header). -/
structure InverterSnapshot where
  work_mode : Nat
  work_mode_str : String
  mains_v : ℚ
  mains_hz : ℚ
  mains_p : Int
  out_v : ℚ
  out_a : ℚ
  out_hz : ℚ
  out_p : Int
  batt_charge_current : ℚ
  bat_v : ℚ
  bat_a : ℚ
  bat_p : Int
  pv_v : ℚ
  pv_a : ℚ
  pv_p : Nat
  pv_avg_p : Nat
  pv_avg_charge_p : Nat
  load_pct : Nat
  chg_temp : Int
  inv_temp : Int
  mppt_temp : Int
  soc : Nat
  flow_status : Nat
  batt_avg_i : ℚ
  inv_avg_i : ℚ
  pv_avg_i : ℚ
  status_word : Option Nat
  warn_word : Option Nat
  fault_word : Option Nat
  decoded_status_bits : Option (List String)
  fault_active : Bool
  deriving DecidableEq

/-- Lines 302–311 of `parse_snapshot` in src/app.py: the optional decode of
the secondary block into the status, warning and fault words and the
decoded status-bit names.  The Python guard `block100 and len(block100) >= 40`
keeps every index used (1–3, registers 101–103) in range, so the register
reads are total here; an empty list fails the guard by falsiness, which the
length test already covers. -/
def parse_secondary (block100 : Option (List Nat)) :
    Option Nat × Option Nat × Option Nat × Option (List String) :=
  match block100 with
  | none => (none, none, none, none)
  | some b =>
    if 40 ≤ b.length then
      let status_word := u16 (b.getD (101 - 100) 0)
      let warn_word := u16 (b.getD (102 - 100) 0)
      let fault_word := u16 (b.getD (103 - 100) 0)
      (some status_word, some warn_word, some fault_word,
        some (bits_to_names status_word GENERIC_STATUS_BITS))
    else (none, none, none, none)

/-- Four consecutive register reads `block200[addr - 200]` of
`parse_snapshot`, left to right; fails at the first out-of-range access,
exactly as the Python reads raise `IndexError` in statement order. -/
def read4 (b : List Nat) (a1 a2 a3 a4 : Nat) : Option (Nat × Nat × Nat × Nat) := do
  pure (← b[a1 - 200]?, ← b[a2 - 200]?, ← b[a3 - 200]?, ← b[a4 - 200]?)

/-- Function `parse_snapshot` from src/app.py.  Register reads
`r(addr) = block200[addr - 200]` are fallible (Python raises `IndexError`
past the end of the block), so the decode runs in the `Option` monad and
yields `none` when the primary block is too short for some read.  The
reads are hoisted above the pure field arithmetic, batched by `read4` in
the exact source order 201, 202, 203, 204, 210, …, 233, 234; since the
arithmetic between reads is total, this preserves the Python behaviour
(same reads, same order, abort at the first out-of-range access).
`fault_active` is the OR of the three fault signals of lines 313–317; the
Python truthiness test on `decoded_status_bits` is absorbed by membership
in the empty list being false. -/
def parse_snapshot (block200 : List Nat) (block100 : Option (List Nat)) :
    Option InverterSnapshot := do
  let (w201, w202, w203, w204) ← read4 block200 201 202 203 204
  let (w210, w211, w212, w213) ← read4 block200 210 211 212 213
  let (w214, w215, w216, w217) ← read4 block200 214 215 216 217
  let (w219, w220, w223, w224) ← read4 block200 219 220 223 224
  let (w225, w226, w227, w228) ← read4 block200 225 226 227 228
  let (w229, w231, w232, w233) ← read4 block200 229 231 232 233
  let w234 ← block200[234 - 200]?
  let work_mode := u16 w201
  let work_mode_str :=
    (WORK_MODE_MAP.lookup work_mode).getD ("Unknown(" ++ toString work_mode ++ ")")
  let mains_v := (u16 w202 : ℚ) / 10
  let mains_hz := (u16 w203 : ℚ) / 100
  let mains_p := s16 w204
  let out_v := (u16 w210 : ℚ) / 10
  let out_a := (u16 w211 : ℚ) / 10
  let out_hz := (u16 w212 : ℚ) / 100
  let out_p := s16 w213
  let batt_charge_current := (u16 w214 : ℚ) / 10
  let bat_v := (u16 w215 : ℚ) / 10
  let bat_a := (s16 w216 : ℚ) / 10
  let bat_p := s16 w217
  let pv_v := (u16 w219 : ℚ) / 10
  let pv_a := (s16 w220 : ℚ) / 10
  let pv_avg_p := u16 w223
  let pv_avg_charge_p := u16 w224
  let pv_p := clamp_bad_power pv_avg_p
  let load_pct := u16 w225
  let chg_temp := s16 w226
  let inv_temp := s16 w227
  let mppt_temp := s16 w228
  let soc := u16 w229
  let flow_status := u16 w231
  let batt_avg_i := (s16 w232 : ℚ) / 10
  let inv_avg_i := (s16 w233 : ℚ) / 10
  let pv_avg_i := (s16 w234 : ℚ) / 10
  let (status_word, warn_word, fault_word, decoded_status_bits) :=
    parse_secondary block100
  let fault_active :=
    work_mode_str.toLower.startsWith ("fault")
    || (match fault_word with | some fw => fw != 0 | none => false)
    || (match decoded_status_bits with
        | some bits => bits.contains ("Fault")
        | none => false)
  pure {
    work_mode := work_mode
    work_mode_str := work_mode_str
    mains_v := mains_v
    mains_hz := mains_hz
    mains_p := mains_p
    out_v := out_v
    out_a := out_a
    out_hz := out_hz
    out_p := out_p
    batt_charge_current := batt_charge_current
    bat_v := bat_v
    bat_a := bat_a
    bat_p := bat_p
    pv_v := pv_v
    pv_a := pv_a
    pv_p := pv_p
    pv_avg_p := pv_avg_p
    pv_avg_charge_p := pv_avg_charge_p
    load_pct := load_pct
    chg_temp := chg_temp
    inv_temp := inv_temp
    mppt_temp := mppt_temp
    soc := soc
    flow_status := flow_status
    batt_avg_i := batt_avg_i
    inv_avg_i := inv_avg_i
    pv_avg_i := pv_avg_i
    status_word := status_word
    warn_word := warn_word
    fault_word := fault_word
    decoded_status_bits := decoded_status_bits
    fault_active := fault_active }

/-- The failure marker for a rejected poll cycle (spec taxonomy:
`InsufficientData`). -/
inductive DecodeFailure where
  | insufficientData
  deriving DecidableEq

/-- The decode step of `main` in src/app.py (lines 404–412): a missing or
short primary block (`if not block200 or len(block200) < 60`) is rejected
before `parse_snapshot` runs — the skipped cycle is the `InsufficientData`
failure of the spec's error taxonomy.  The empty-list falsy case of
`not block200` is subsumed by the length test. -/
def decode (block200 : Option (List Nat)) (block100 : Option (List Nat)) :
    Except DecodeFailure InverterSnapshot :=
  match block200 with
  | none => .error .insufficientData
  | some b =>
    if b.length < 60 then .error .insufficientData
    else
      match parse_snapshot b block100 with
      | some snap => .ok snap
      | none => .error .insufficientData

/-- The snapshot value `parse_snapshot` produces once every primary register
access is in range, with each read in its total `getD` form; agreement with
`parse_snapshot` is proved in `parse_snapshot_eq_of_length`. -/
def snapshotOf (block200 : List Nat) (block100 : Option (List Nat)) :
    InverterSnapshot :=
  let g := fun (addr : Nat) => block200.getD (addr - 200) 0
  let work_mode := u16 (g 201)
  let work_mode_str :=
    (WORK_MODE_MAP.lookup work_mode).getD ("Unknown(" ++ toString work_mode ++ ")")
  let pv_avg_p := u16 (g 223)
  let sec := parse_secondary block100
  let fault_word := sec.2.2.1
  let decoded_status_bits := sec.2.2.2
  { work_mode := work_mode
    work_mode_str := work_mode_str
    mains_v := (u16 (g 202) : ℚ) / 10
    mains_hz := (u16 (g 203) : ℚ) / 100
    mains_p := s16 (g 204)
    out_v := (u16 (g 210) : ℚ) / 10
    out_a := (u16 (g 211) : ℚ) / 10
    out_hz := (u16 (g 212) : ℚ) / 100
    out_p := s16 (g 213)
    batt_charge_current := (u16 (g 214) : ℚ) / 10
    bat_v := (u16 (g 215) : ℚ) / 10
    bat_a := (s16 (g 216) : ℚ) / 10
    bat_p := s16 (g 217)
    pv_v := (u16 (g 219) : ℚ) / 10
    pv_a := (s16 (g 220) : ℚ) / 10
    pv_p := clamp_bad_power pv_avg_p
    pv_avg_p := pv_avg_p
    pv_avg_charge_p := u16 (g 224)
    load_pct := u16 (g 225)
    chg_temp := s16 (g 226)
    inv_temp := s16 (g 227)
    mppt_temp := s16 (g 228)
    soc := u16 (g 229)
    flow_status := u16 (g 231)
    batt_avg_i := (s16 (g 232) : ℚ) / 10
    inv_avg_i := (s16 (g 233) : ℚ) / 10
    pv_avg_i := (s16 (g 234) : ℚ) / 10
    status_word := sec.1
    warn_word := sec.2.1
    fault_word := fault_word
    decoded_status_bits := decoded_status_bits
    fault_active :=
      work_mode_str.toLower.startsWith ("fault")
      || (match fault_word with | some fw => fw != 0 | none => false)
      || (match decoded_status_bits with
          | some bits => bits.contains ("Fault")
          | none => false) }

/-- Characterization of the decoder: it succeeds exactly on primary blocks
of at least 35 words (covering the highest offset, address 234), and then
produces `snapshotOf`. -/
theorem parse_snapshot_eq (b : List Nat) (b100 : Option (List Nat)) :
    parse_snapshot b b100 = if 35 ≤ b.length then some (snapshotOf b b100) else none := by
  rcases Nat.lt_or_ge b.length 35 with h | h
  · rw [if_neg (by omega)]
    cases hp : parse_snapshot b b100 with
    | none => rfl
    | some snap =>
      exfalso
      rw [parse_snapshot] at hp
      simp only [Option.bind_eq_bind, Option.bind_eq_some] at hp
      obtain ⟨⟨w1, w2, w3, w4⟩, -, hp⟩ := hp
      obtain ⟨⟨x1, x2, x3, x4⟩, -, hp⟩ := hp
      obtain ⟨⟨y1, y2, y3, y4⟩, -, hp⟩ := hp
      obtain ⟨⟨z1, z2, z3, z4⟩, -, hp⟩ := hp
      obtain ⟨⟨u1, u2, u3, u4⟩, -, hp⟩ := hp
      obtain ⟨⟨v1, v2, v3, v4⟩, -, hp⟩ := hp
      obtain ⟨w234, hw, -⟩ := hp
      rw [List.getElem?_eq_none (show b.length ≤ 234 - 200 by omega)] at hw
      simp at hw
  · rw [if_pos h]
    have key : ∀ addr : Nat, 200 ≤ addr → addr ≤ 234 →
        b[addr - 200]? = some (b.getD (addr - 200) 0) := by
      intro addr h1 h2
      have hib : addr - 200 < b.length := by omega
      rw [List.getElem?_eq_getElem hib, List.getD_eq_getElem b 0 hib]
    simp only [parse_snapshot, read4, snapshotOf,
      key 201 (by norm_num) (by norm_num), key 202 (by norm_num) (by norm_num),
      key 203 (by norm_num) (by norm_num), key 204 (by norm_num) (by norm_num),
      key 210 (by norm_num) (by norm_num), key 211 (by norm_num) (by norm_num),
      key 212 (by norm_num) (by norm_num), key 213 (by norm_num) (by norm_num),
      key 214 (by norm_num) (by norm_num), key 215 (by norm_num) (by norm_num),
      key 216 (by norm_num) (by norm_num), key 217 (by norm_num) (by norm_num),
      key 219 (by norm_num) (by norm_num), key 220 (by norm_num) (by norm_num),
      key 223 (by norm_num) (by norm_num), key 224 (by norm_num) (by norm_num),
      key 225 (by norm_num) (by norm_num), key 226 (by norm_num) (by norm_num),
      key 227 (by norm_num) (by norm_num), key 228 (by norm_num) (by norm_num),
      key 229 (by norm_num) (by norm_num), key 231 (by norm_num) (by norm_num),
      key 232 (by norm_num) (by norm_num), key 233 (by norm_num) (by norm_num),
      key 234 (by norm_num) (by norm_num),
      Option.bind_eq_bind, Option.some_bind, Option.pure_def]

/-- The set-bit test of the decoders, rephrased through `Nat.testBit`. -/
theorem and_shift_ne_zero (v i : Nat) : (v &&& (1 <<< i) != 0) = true ↔ v.testBit i := by
  rw [Nat.one_shiftLeft, Nat.and_two_pow]
  cases h : v.testBit i <;> simp [h, Nat.pos_iff_ne_zero, Nat.pow_pos]

/-- C1: a primary block shorter than the minimum length (35 words, too short
to cover the highest decode-table offset, address 234) makes the poll cycle
fail with the `InsufficientData` marker, and `parse_snapshot` itself returns
a failure (`none`) instead of any out-of-range access. -/
theorem decode_short_block_insufficient (b : List Nat) (b100 : Option (List Nat))
    (h : b.length < 35) :
    decode (some b) b100 = Except.error DecodeFailure.insufficientData ∧
    parse_snapshot b b100 = none := by
  constructor
  · simp only [decode, if_pos (show b.length < 60 by omega)]
  · rw [parse_snapshot_eq, if_neg (by omega)]

theorem decode_short_block_insufficient_witness :
    ([] : List Nat).length < 35 ∧
    (decode (some ([] : List Nat)) none = Except.error DecodeFailure.insufficientData ∧
      parse_snapshot ([] : List Nat) none = none) :=
  ⟨by decide, decode_short_block_insufficient [] none (by decide)⟩

/-- C2: for a decodable primary block, `pv_avg_p` and `pv_avg_charge_p`
record registers 223 and 224 unfiltered, while `pv_p` is 0 when the raw
averaged PV power word (register 223) is at least 65500 or exceeds the
10000 W ceiling, and the raw value otherwise. -/
theorem pv_power_anomaly_filter (b : List Nat) (b100 : Option (List Nat))
    (h : 35 ≤ b.length) :
    ∃ snap, parse_snapshot b b100 = some snap ∧
      snap.pv_avg_p = u16 (b.getD 23 0) ∧
      snap.pv_avg_charge_p = u16 (b.getD 24 0) ∧
      snap.pv_p = (if 65500 ≤ u16 (b.getD 23 0) ∨ 10000 < u16 (b.getD 23 0)
        then 0 else u16 (b.getD 23 0)) := by
  refine ⟨snapshotOf b b100, by rw [parse_snapshot_eq, if_pos h], rfl, rfl, rfl⟩

theorem pv_power_anomaly_filter_witness :
    35 ≤ (List.replicate 35 0).length ∧
    ∃ snap, parse_snapshot (List.replicate 35 0) none = some snap ∧
      snap.pv_avg_p = u16 ((List.replicate 35 0).getD 23 0) ∧
      snap.pv_avg_charge_p = u16 ((List.replicate 35 0).getD 24 0) ∧
      snap.pv_p = (if 65500 ≤ u16 ((List.replicate 35 0).getD 23 0) ∨
          10000 < u16 ((List.replicate 35 0).getD 23 0)
        then 0 else u16 ((List.replicate 35 0).getD 23 0)) :=
  ⟨by decide, pv_power_anomaly_filter (List.replicate 35 0) none (by decide)⟩

/-- C3: whenever mains power exceeds 50 W the classifier returns
`BYPASS_GRID`, whatever the battery, PV and output powers are — rule 1
wins over every later rule. -/
theorem classifier_bypass_priority (mains_w bat_w pv_w out_w : Int)
    (h : 50 < mains_w) :
    derived_operation_mode mains_w bat_w pv_w out_w = "BYPASS_GRID" := by
  rw [derived_operation_mode, if_pos h]

theorem classifier_bypass_priority_witness :
    (50 : Int) < 100 ∧
    derived_operation_mode 100 500 0 0 = "BYPASS_GRID" :=
  ⟨by decide, classifier_bypass_priority 100 500 0 0 (by decide)⟩

/-- C4: battery-discharge detection is strict: with mains power at most
50 W, battery power −30 classifies as `IDLE_OR_UNKNOWN` whenever the PV
power or the output power is at most 30 W, while battery power −31 always
classifies as `INVERTER_BATTERY_DISCHARGE`. -/
theorem classifier_discharge_boundary (mains_w pv_w out_w : Int)
    (hm : mains_w ≤ 50) :
    ((pv_w ≤ 30 ∨ out_w ≤ 30) →
      derived_operation_mode mains_w (-30) pv_w out_w = "IDLE_OR_UNKNOWN") ∧
    derived_operation_mode mains_w (-31) pv_w out_w = "INVERTER_BATTERY_DISCHARGE" := by
  constructor
  · intro hpo
    rw [derived_operation_mode, if_neg (by omega), if_neg (by norm_num),
      if_neg (by norm_num), if_neg (by omega)]
  · rw [derived_operation_mode, if_neg (by omega), if_pos (by norm_num)]

theorem classifier_discharge_boundary_witness :
    (0 : Int) ≤ 50 ∧
    (((0 : Int) ≤ 30 ∨ (0 : Int) ≤ 30) →
      derived_operation_mode 0 (-30) 0 0 = "IDLE_OR_UNKNOWN") ∧
    derived_operation_mode 0 (-31) 0 0 = "INVERTER_BATTERY_DISCHARGE" :=
  ⟨by decide, classifier_discharge_boundary 0 0 0 (by decide)⟩

/-- C6: `s16` implements 16-bit two's complement: words at or above 0x8000
map to `w - 0x10000`, smaller words are unchanged; it is total on every
16-bit input. -/
theorem s16_twos_complement (w : Nat) (h : w < 65536) :
    (0x8000 ≤ w → s16 w = (w : Int) - 0x10000) ∧
    (w < 0x8000 → s16 w = (w : Int)) := by
  constructor
  · intro hw
    rw [s16, if_neg (by omega)]
  · intro hw
    rw [s16, if_pos hw]

theorem s16_twos_complement_witness :
    (40000 : Nat) < 65536 ∧ s16 40000 = (40000 : Int) - 0x10000 :=
  ⟨by decide, (s16_twos_complement 40000 (by decide)).1 (by decide)⟩

/-- C8: `flow_bits_list` returns exactly the indices below 16 whose bit is
set in the value, in strictly ascending order; on 0 it is empty and on
0b101 it is `[0, 2]`. -/
theorem flow_bits_ascending_set :
    (∀ v : Nat, List.Pairwise (· < ·) (flow_bits_list v) ∧
      ∀ i : Nat, i ∈ flow_bits_list v ↔ i < 16 ∧ v.testBit i) ∧
    flow_bits_list 0 = [] ∧ flow_bits_list 5 = [0, 2] := by
  refine ⟨fun v => ⟨(List.pairwise_lt_range 16).filter _, fun i => ?_⟩, by decide, by decide⟩
  simp only [flow_bits_list, List.mem_filter, List.mem_range, and_shift_ne_zero]

/-- C9: `bits_to_names` returns exactly the names whose bit index is listed
in the table and set in the value; set bits absent from the table
contribute nothing. -/
theorem bits_to_names_membership :
    ∀ (value : Nat) (table : List (Nat × String)) (name : String),
      name ∈ bits_to_names value table ↔
        ∃ bit : Nat, (bit, name) ∈ table ∧ value.testBit bit := by
  intro v t n
  simp only [bits_to_names, List.mem_map, List.mem_filter]
  constructor
  · rintro ⟨⟨bit, nm⟩, ⟨hmem, hbit⟩, rfl⟩
    exact ⟨bit, hmem, (and_shift_ne_zero v bit).mp hbit⟩
  · rintro ⟨bit, hmem, hbit⟩
    exact ⟨(bit, n), ⟨hmem, (and_shift_ne_zero v bit).mpr hbit⟩, rfl⟩

/-- The anomaly filter never lets a value above 10000 through. -/
theorem clamp_bad_power_le (pin : Nat) : clamp_bad_power pin ≤ 10000 := by
  rw [clamp_bad_power]
  split
  · exact Nat.zero_le _
  · omega

/-- C10: the anomaly filter is the function that zeroes any value above
10000 (the 65500 sentinel test is subsumed by the 10000 ceiling), so the
filtered PV power of every decoded snapshot lies in [0, 10000]. -/
theorem pv_power_clamp_range :
    (∀ pin : Nat, clamp_bad_power pin = if 10000 < pin then 0 else pin) ∧
    (∀ (b : List Nat) (b100 : Option (List Nat)), 35 ≤ b.length →
      ∃ snap, parse_snapshot b b100 = some snap ∧
        0 ≤ snap.pv_p ∧ snap.pv_p ≤ 10000) := by
  constructor
  · intro pin
    rw [clamp_bad_power]
    rcases Nat.lt_or_ge 10000 pin with h | h
    · rw [if_pos (Or.inr h), if_pos h]
    · rw [if_neg (by omega), if_neg (by omega)]
  · intro b b100 h
    exact ⟨snapshotOf b b100, by rw [parse_snapshot_eq, if_pos h],
      Nat.zero_le _, clamp_bad_power_le _⟩

theorem pv_power_clamp_range_witness :
    35 ≤ (List.replicate 35 0).length ∧
    ∃ snap, parse_snapshot (List.replicate 35 0) none = some snap ∧
      0 ≤ snap.pv_p ∧ snap.pv_p ≤ 10000 :=
  ⟨by decide, pv_power_clamp_range.2 (List.replicate 35 0) none (by decide)⟩

/-- C5: `fault_active` is the OR of the three independently-sourced fault
signals (work-mode text indicating fault, non-zero fault word, decoded
status flags containing the fault flag); in particular a non-zero fault
word (register 103) alone forces `fault_active = true`. -/
theorem fault_active_or_of_signals (b200 b100 : List Nat)
    (h200 : 35 ≤ b200.length) (h100 : 40 ≤ b100.length) :
    ∃ snap, parse_snapshot b200 (some b100) = some snap ∧
      snap.fault_active =
        (snap.work_mode_str.toLower.startsWith ("fault")
          || snap.fault_word.getD 0 != 0
          || (snap.decoded_status_bits.getD []).contains ("Fault")) ∧
      (u16 (b100.getD 3 0) ≠ 0 → snap.fault_active = true) := by
  refine ⟨snapshotOf b200 (some b100), by rw [parse_snapshot_eq, if_pos h200], ?_, ?_⟩
  · simp only [snapshotOf, parse_secondary, if_pos h100, Option.getD_some]
  · intro hw
    simp only [snapshotOf, parse_secondary, if_pos h100]
    simp only [Bool.or_eq_true, bne_iff_ne]
    exact Or.inl (Or.inr hw)

theorem fault_active_or_of_signals_witness :
    (35 ≤ (List.replicate 35 0).length ∧ 40 ≤ (List.replicate 40 1).length) ∧
    ∃ snap, parse_snapshot (List.replicate 35 0) (some (List.replicate 40 1)) = some snap ∧
      snap.fault_active =
        (snap.work_mode_str.toLower.startsWith ("fault")
          || snap.fault_word.getD 0 != 0
          || (snap.decoded_status_bits.getD []).contains ("Fault")) ∧
      (u16 ((List.replicate 40 1).getD 3 0) ≠ 0 → snap.fault_active = true) :=
  ⟨⟨by decide, by decide⟩,
    fault_active_or_of_signals (List.replicate 35 0) (List.replicate 40 1)
      (by decide) (by decide)⟩

/-- C7: a secondary block shorter than 40 words leaves the status, warning
and fault words and the decoded status-bit list absent (`none`, not zero)
and decodes the snapshot exactly as with no secondary block at all; a
secondary block of length at least 40 yields all three words, with the
status word expanded into named flags. -/
theorem secondary_block_optional (b200 b100 : List Nat) (h200 : 35 ≤ b200.length) :
    (b100.length < 40 →
      parse_snapshot b200 (some b100) = parse_snapshot b200 none ∧
      ∃ snap, parse_snapshot b200 (some b100) = some snap ∧
        snap.status_word = none ∧ snap.warn_word = none ∧
        snap.fault_word = none ∧ snap.decoded_status_bits = none) ∧
    (40 ≤ b100.length →
      ∃ snap, parse_snapshot b200 (some b100) = some snap ∧
        snap.status_word = some (u16 (b100.getD 1 0)) ∧
        snap.warn_word = some (u16 (b100.getD 2 0)) ∧
        snap.fault_word = some (u16 (b100.getD 3 0)) ∧
        snap.decoded_status_bits =
          some (bits_to_names (u16 (b100.getD 1 0)) GENERIC_STATUS_BITS)) := by
  constructor
  · intro hshort
    have hsec : snapshotOf b200 (some b100) = snapshotOf b200 none := by
      simp [snapshotOf, parse_secondary, if_neg (by omega : ¬ 40 ≤ b100.length)]
    constructor
    · rw [parse_snapshot_eq, parse_snapshot_eq, hsec]
    · refine ⟨snapshotOf b200 (some b100),
        by rw [parse_snapshot_eq, if_pos h200], ?_, ?_, ?_, ?_⟩ <;>
        simp [snapshotOf, parse_secondary, if_neg (by omega : ¬ 40 ≤ b100.length)]
  · intro hlong
    refine ⟨snapshotOf b200 (some b100),
      by rw [parse_snapshot_eq, if_pos h200], ?_, ?_, ?_, ?_⟩ <;>
      simp [snapshotOf, parse_secondary, if_pos hlong]

theorem secondary_block_optional_witness :
    35 ≤ (List.replicate 35 0).length ∧ 40 ≤ (List.replicate 40 1).length ∧
    ∃ snap, parse_snapshot (List.replicate 35 0) (some (List.replicate 40 1)) = some snap ∧
      snap.status_word = some (u16 ((List.replicate 40 1).getD 1 0)) ∧
      snap.warn_word = some (u16 ((List.replicate 40 1).getD 2 0)) ∧
      snap.fault_word = some (u16 ((List.replicate 40 1).getD 3 0)) ∧
      snap.decoded_status_bits =
        some (bits_to_names (u16 ((List.replicate 40 1).getD 1 0)) GENERIC_STATUS_BITS) :=
  ⟨by decide, by decide,
    (secondary_block_optional (List.replicate 35 0) (List.replicate 40 1) (by decide)).2
      (by decide)⟩
